import Mathlib

/-!
Shallow embedding of `compiler.py` (Auto PYtoEXE Compiler) and proofs about
its dependency-analysis, requirements-parsing and packaging-invocation logic.

Python strings are modelled as Lean `String` (processed through `List Char`
so that everything reduces in the kernel); the filesystem, standard input,
pip and the packaging subprocess are modelled as explicit fields of an
environment record, since the code only observes them through boolean or
line-list shaped results.
-/

/-- Python `str.strip()` on a list of characters: drop whitespace from both ends. -/
def pyStrip (cs : List Char) : List Char :=
  ((cs.dropWhile Char.isWhitespace).reverse.dropWhile Char.isWhitespace).reverse

/-- Python `str.strip()` on a `String`. -/
def pyStripS (s : String) : String :=
  ⟨pyStrip s.toList⟩

/-- Python `str.lower()` (ASCII-faithful). -/
def pyLower (s : String) : String :=
  ⟨s.toList.map Char.toLower⟩

/-- Python `s.startswith(pre)`. -/
def pyStartsWith (s pre : String) : Bool :=
  pre.toList.isPrefixOf s.toList

/-- Python `s.endswith(suf)`. -/
def pyEndsWith (s suf : String) : Bool :=
  suf.toList.isSuffixOf s.toList

/-- The part of `cs` strictly before the first occurrence of the
(nonempty) character sequence `sep`; all of `cs` when `sep` does not occur.
This is Python's `cs.split(sep)[0]`. -/
def beforeSeq (sep : List Char) : List Char → List Char
  | [] => []
  | c :: rest => if sep.isPrefixOf (c :: rest) then [] else c :: beforeSeq sep rest

/-- Does the character sequence `sep` occur inside `cs`? -/
def containsSeq (sep : List Char) : List Char → Bool
  | [] => sep.isPrefixOf []
  | c :: rest => sep.isPrefixOf (c :: rest) || containsSeq sep rest

/-- `line.split('>=')[0].split('==')[0].split('<=')[0].strip()` from
`DependencyManager.parse_requirements_file`: the three splits are applied in
sequence, each keeping the part before the first occurrence of its operator
in what the previous split kept. -/
def stripVersionOps (s : String) : String :=
  pyStripS ⟨beforeSeq "<=".toList (beforeSeq "==".toList (beforeSeq ">=".toList s.toList))⟩

/-- A `requirements.txt` file on disk, as the reading loop observes it:
the lines it manages to read, and whether an exception interrupts the read
after those lines. -/
structure ReqFile where
  goodLines : List String
  failsAfter : Bool
deriving DecidableEq

/-- The body of the `for line in f` loop of `parse_requirements_file`:
strip the line; skip it when empty, a `#` comment, or a `-` option flag;
otherwise strip version operators and keep the name when nonempty. -/
def processRequirementLine (line : String) : Option String :=
  let l := pyStripS line
  if l.toList.isEmpty || pyStartsWith l "#" || pyStartsWith l "-" then none
  else
    let name := stripVersionOps l
    if name.toList.isEmpty then none else some name

/-- The `packages` accumulator of `parse_requirements_file` after the read
loop has consumed `lines`. -/
def collectPackages (lines : List String) : List String :=
  lines.foldl (fun acc line =>
    match processRequirementLine line with
    | some p => acc ++ [p]
    | none => acc) []

/-- The `try` block of `parse_requirements_file`: the `packages` collected
(from the lines read before any exception) together with the exception, if
one is raised mid-read. A missing file (`none`) is not an exception: the
existence check handles it. -/
def parseReqBody : Option ReqFile → List String × Option String
  | none => ([], none)
  | some f => (collectPackages f.goodLines, if f.failsAfter then some "read error" else none)

/-- `DependencyManager.parse_requirements_file`: the `except` clause prints
the error and falls through to `return packages`, so the caller always
receives the collected list, never an exception. -/
def parse_requirements_file (file : Option ReqFile) : List String :=
  (parseReqBody file).1

example : parse_requirements_file
    (some ⟨["# comment", "", "flask>=2.0", "requests==2.31.0", "-e .", "click"], false⟩)
    = ["flask", "requests", "click"] := by decide

example : parse_requirements_file (some ⟨["a==b>=c"], false⟩) = ["a"] := by decide

example : stripVersionOps "a<==b" = "a<" := by decide

/-- `os.path.basename` (POSIX): the part after the last `/`. -/
def basename (p : String) : String :=
  ⟨(p.toList.reverse.takeWhile (fun c => !(c == '/'))).reverse⟩

/-- `os.path.dirname` (POSIX): everything before the last `/`, with trailing
separators stripped unless the result is all separators. -/
def dirname (p : String) : String :=
  let head := (p.toList.reverse.dropWhile (fun c => !(c == '/'))).reverse
  if head.isEmpty then ""
  else if head.all (fun c => c == '/') then ⟨head⟩
  else ⟨(head.reverse.dropWhile (fun c => c == '/')).reverse⟩

/-- `os.path.join a b` (POSIX, two arguments). -/
def joinPath (a b : String) : String :=
  if pyStartsWith b "/" then b
  else if a.toList.isEmpty || (a.toList.getLast? == some '/') then a ++ b
  else a ++ "/" ++ b

/-- `os.path.splitext(p)[0]` applied to a bare file name: cut at the last
dot, unless every character before that dot is itself a dot (so leading-dot
names such as `.bashrc` keep their dot). -/
def splitextBase (p : String) : String :=
  let cs := p.toList
  match cs.reverse.dropWhile (fun c => !(c == '.')) with
  | [] => p
  | _ :: restRev =>
    if restRev.any (fun c => !(c == '.')) then ⟨restRev.reverse⟩ else p

example : splitextBase (basename "proj/app.py") = "app" := by decide
example : dirname "proj/app.py" = "proj" := by decide

/-- An `import` / `from ... import ...` statement as seen by the AST walk of
`ImportAnalyzer.extract_imports`. `impFrom none` is a relative import
(`node.module` is `None`). -/
inductive PyNode
  | imp (names : List String)
  | impFrom (module : Option String)
deriving DecidableEq

/-- Outcome of `subprocess.run(cmd, ..., check=True)` for the packaging tool. -/
inductive RunOutcome
  | exitZero
  | calledProcessError (stderr : String)
  | fileNotFound
  | otherError (msg : String)
deriving DecidableEq

/-- The parts of the outside world `compiler.py` observes: command-line shape,
standard input, which modules `__import__` finds, what `pip install` does,
the `requirements.txt` next to the script, the directory listing around the
script, the parse of each Python file, and the packaging subprocess. -/
structure Env where
  argc : Nat
  stdinInput : Option String
  importable : List String
  pipOk : String → Bool
  reqFile : Option ReqFile
  dirListing : List String
  pyFiles : String → Except String (List PyNode)
  runOutcome : RunOutcome
  cleanupFails : Bool
  specExists : Bool
  buildExists : Bool

/-- `package_name.lower().replace('-', '_')` from `check_package_installed`. -/
def pyNormalizeImportName (s : String) : String :=
  ⟨s.toList.map (fun c => if c.toLower == '-' then '_' else c.toLower)⟩

/-- `DependencyManager.check_package_installed`: `__import__` of the
normalized name succeeds exactly when the environment can import it. -/
def check_package_installed (env : Env) (packageName : String) : Bool :=
  env.importable.contains (pyNormalizeImportName packageName)

/-- `DependencyManager.install_package`: pip exit status zero means success;
non-zero exit and spawn errors are caught and reported as `false`. -/
def install_package (env : Env) (packageName : String) : Bool :=
  env.pipOk packageName

/-- `DependencyManager.REQUIRED_PACKAGES`. -/
def REQUIRED_PACKAGES : List String := ["pyinstaller"]

/-- The install loop of `ensure_compiler_dependencies`: stop and fail on the
first package whose installation fails. -/
def installAllOrFail (env : Env) : List String → Bool
  | [] => true
  | p :: rest => if install_package env p then installAllOrFail env rest else false

/-- `DependencyManager.ensure_compiler_dependencies`. -/
def ensure_compiler_dependencies (env : Env) : Bool :=
  let missing := REQUIRED_PACKAGES.filter (fun p => !(check_package_installed env p))
  if missing.isEmpty then true else installAllOrFail env missing

/-- The console messages `ensure_project_dependencies` can print, as tags
(each constructor stands for one `print` in the source). -/
inductive EPDLog
  | noRequirements
  | onlyPyinstallerHandled
  | allAlreadyInstalled
  | packagesNeeded (pkgs : List String)
  | declinedWarning
  | allInstalled
  | notAllInstalled (succ total : Nat)
deriving DecidableEq

/-- Result of `ensure_project_dependencies`: the returned boolean, the
packages passed to `install_package` (in order), and the printed messages. -/
structure EPDResult where
  ok : Bool
  attempts : List String
  logs : List EPDLog
deriving DecidableEq

/-- The install loop at the end of `ensure_project_dependencies`: every
missing package is attempted independently, successes are counted, and the
function returns `True` in both the all-installed and the partial case
("Continue anyway, user can install manually later"). -/
def projectInstallPhase (env : Env) (missing : List String) : EPDResult :=
  let successCount := (missing.filter (fun p => install_package env p)).length
  if successCount == missing.length then
    ⟨true, missing, [.packagesNeeded missing, .allInstalled]⟩
  else
    ⟨true, missing, [.packagesNeeded missing, .notAllInstalled successCount missing.length]⟩

/-- `DependencyManager.ensure_project_dependencies`, transcribed with the
duplicated locate-and-parse block of the source (lines 162-169 repeat lines
147-154): after filtering `pyinstaller` out of the declared packages the
source re-parses `requirements.txt`, overwriting the filtered list. -/
def ensure_project_dependencies (env : Env) (_scriptPath : String) : EPDResult :=
  match env.reqFile with
  | none => ⟨true, [], [.noRequirements]⟩
  | some _ =>
    let required := parse_requirements_file env.reqFile
    if required.isEmpty then ⟨true, [], []⟩
    else
      let requiredFiltered := required.filter (fun pkg => !(pyLower pkg == "pyinstaller"))
      if requiredFiltered.isEmpty then ⟨true, [], [.onlyPyinstallerHandled]⟩
      else
        match env.reqFile with
        | none => ⟨true, [], [.noRequirements]⟩
        | some _ =>
          let required2 := parse_requirements_file env.reqFile
          if required2.isEmpty then ⟨true, [], []⟩
          else
            let missing := required2.filter (fun pkg => !(check_package_installed env pkg))
            if missing.isEmpty then ⟨true, [], [.allAlreadyInstalled]⟩
            else
              if env.argc == 1 then
                match env.stdinInput with
                | none => ⟨false, [], [.packagesNeeded missing]⟩
                | some resp =>
                  if !(["y", "yes", ""].contains (pyLower (pyStripS resp))) then
                    ⟨false, [], [.packagesNeeded missing, .declinedWarning]⟩
                  else projectInstallPhase env missing
              else projectInstallPhase env missing

/-- The warning printed by `extract_imports` when a file cannot be read or
parsed; it carries the file path and the error detail. -/
inductive ParseWarning
  | couldNotParse (path : String) (detail : String)
deriving DecidableEq

/-- Per-node contribution of the AST walk in `extract_imports`: alias names
of an `import` statement, the module of a `from ... import` statement when
it is not the relative-import placeholder. -/
def nodeImports : PyNode → List String
  | .imp names => names
  | .impFrom (some m) => [m]
  | .impFrom none => []

/-- `ImportAnalyzer.extract_imports`: returns `list(set(imports))` (modelled
as `dedup`, Python set order being unspecified) on success, and an empty
list plus a warning naming the path and the error on any failure. -/
def extract_imports (env : Env) (filePath : String) : List String × List ParseWarning :=
  match env.pyFiles filePath with
  | .error e => ([], [.couldNotParse filePath e])
  | .ok nodes =>
    ((nodes.foldl (fun acc n => acc ++ nodeImports n) []).dedup, [])

/-- `ImportAnalyzer.find_local_modules`: sibling `.py` files other than the
entry point itself and files starting with `compiler`, joined to the
script's directory. -/
def find_local_modules (env : Env) (mainScriptPath : String) : List String :=
  let dir := dirname mainScriptPath
  (env.dirListing.filter (fun f =>
      pyEndsWith f ".py" && !(f == basename mainScriptPath)
        && !(pyStartsWith f "compiler"))).map
    (fun f => joinPath dir f)

/-- The dictionary returned by `ImportAnalyzer.analyze_dependencies`. -/
structure Analysis where
  main_imports : List String
  local_modules : List String
  all_imports : List String
  external_imports : List String
  local_module_names : List String
deriving DecidableEq

/-- The hard-coded standard-library allowlist of `analyze_dependencies`. -/
def stdlib_modules : List String :=
  ["os", "sys", "math", "json", "datetime", "time", "re",
   "random", "pathlib", "collections", "itertools", "functools"]

/-- `ImportAnalyzer.analyze_dependencies`: `all_imports` is the set union of
the entry point's imports and every local module's imports (a Python `set`,
modelled as `dedup` of the accumulated list); `external_imports` drops the
allowlisted names. -/
def analyze_dependencies (env : Env) (mainScriptPath : String) : Analysis :=
  let main_imports := (extract_imports env mainScriptPath).1
  let local_modules := find_local_modules env mainScriptPath
  let all_imports :=
    (local_modules.foldl (fun acc m => acc ++ (extract_imports env m).1) main_imports).dedup
  let external_imports := all_imports.filter (fun i => !(stdlib_modules.contains i))
  ⟨main_imports, local_modules, all_imports, external_imports, local_modules.map basename⟩

/-- The PyInstaller command composed in `compile_to_exe`: the fixed flag
block, then the loop extending the command with one `--hidden-import` pair
per external import, then the script path appended last. -/
def buildPyinstallerCmd (script outputDir scriptName : String)
    (externalImports : List String) : List String :=
  let cmd := ["pyinstaller", "--onefile", "--console",
              "--distpath", outputDir,
              "--workpath", joinPath outputDir "build",
              "--specpath", outputDir,
              "--name", scriptName,
              "--clean"]
  let cmd := externalImports.foldl (fun c e => c ++ ["--hidden-import", e]) cmd
  cmd ++ [script]

/-- Observable side effects of `compile_to_exe`: invoking PyInstaller with a
concrete command, and the two artifact removals of `_cleanup_temp_files`. -/
inductive CEvent
  | ranPyinstaller (cmd : List String)
  | removedSpec (path : String)
  | removedBuild (path : String)
deriving DecidableEq

/-- The warning printed by `_cleanup_temp_files` when deleting artifacts
raises. -/
inductive CleanupLog
  | cleanupWarning (detail : String)
deriving DecidableEq

/-- `PyToExeCompiler._cleanup_temp_files`: removes `<outputDir>/<name>.spec`
and `<outputDir>/build` when present; any exception is caught and turned
into a warning, nothing propagates. -/
def cleanup_temp_files (env : Env) (outputDir scriptName : String) :
    List CEvent × List CleanupLog :=
  if env.cleanupFails then ([], [.cleanupWarning "could not clean up temporary files"])
  else
    ((if env.specExists then [.removedSpec (joinPath outputDir (scriptName ++ ".spec"))] else [])
      ++ (if env.buildExists then [.removedBuild (joinPath outputDir "build")] else []), [])

/-- The exceptions the `try` block of `compile_to_exe` can raise, matching
its three `except` clauses. -/
inductive PyExc
  | calledProcessError (stderr : String)
  | fileNotFound
  | otherError (msg : String)
deriving DecidableEq

/-- The `try` block of `PyToExeCompiler.compile_to_exe`: dependency steps,
analysis, command composition, the (check=True) subprocess run — which
raises on non-zero exit, missing executable or other faults — and cleanup,
which runs only on the success path. -/
def compile_body (env : Env) (script : String) (outputDirOpt : Option String) :
    Except PyExc Bool × List CEvent :=
  let output_dir := outputDirOpt.getD (dirname script)
  if !(ensure_compiler_dependencies env) then (.ok false, [])
  else if !(ensure_project_dependencies env script).ok then (.ok false, [])
  else
    let analysis := analyze_dependencies env script
    let script_name := splitextBase (basename script)
    let cmd := buildPyinstallerCmd script output_dir script_name analysis.external_imports
    match env.runOutcome with
    | .exitZero =>
      (.ok true, .ranPyinstaller cmd :: (cleanup_temp_files env output_dir script_name).1)
    | .calledProcessError e => (.error (.calledProcessError e), [.ranPyinstaller cmd])
    | .fileNotFound => (.error .fileNotFound, [.ranPyinstaller cmd])
    | .otherError m => (.error (.otherError m), [.ranPyinstaller cmd])

/-- `PyToExeCompiler.compile_to_exe`: the three `except` clauses each print
a message and return `False`, so the caller always receives a boolean. -/
def compile_to_exe (env : Env) (script : String) (outputDirOpt : Option String) :
    Bool × List CEvent :=
  let r := compile_body env script outputDirOpt
  match r.1 with
  | .ok b => (b, r.2)
  | .error _ => (false, r.2)

/-! ## Shared lemmas -/

lemma foldl_append_eq_filterMap (g : String → Option String) (lines acc : List String) :
    lines.foldl (fun acc line =>
        match g line with
        | some p => acc ++ [p]
        | none => acc) acc = acc ++ lines.filterMap g := by
  induction lines generalizing acc with
  | nil => simp
  | cons l ls ih =>
    cases h : g l <;> simp [List.foldl_cons, h, ih, List.filterMap_cons]

lemma collectPackages_eq_filterMap (lines : List String) :
    collectPackages lines = lines.filterMap processRequirementLine := by
  simpa using foldl_append_eq_filterMap processRequirementLine lines []

lemma toFinset_foldl_append {α : Type} (f : α → List String) (l : List α)
    (acc : List String) :
    (l.foldl (fun a x => a ++ f x) acc).toFinset =
      acc.toFinset ∪ l.foldr (fun x s => (f x).toFinset ∪ s) ∅ := by
  induction l generalizing acc with
  | nil => simp
  | cons x xs ih =>
    simp [List.foldl_cons, ih, Finset.union_assoc]

/-! ## C4: requirements-line splitting -/

/-- The strip step exactly as claim C4 words it: the substring before the
first occurrence of a version operator, the operators checked in the
priority order `>=`, `==`, `<=`, the first operator that matches winning
(so only one cut is made). -/
def stripVersionOpsClaimC4 (s : String) : String :=
  pyStripS
    (if containsSeq ">=".toList s.toList then ⟨beforeSeq ">=".toList s.toList⟩
     else if containsSeq "==".toList s.toList then ⟨beforeSeq "==".toList s.toList⟩
     else if containsSeq "<=".toList s.toList then ⟨beforeSeq "<=".toList s.toList⟩
     else s)

/-- Claim C4's per-line processing: the skip rules of the code, then the
single priority-ordered cut described by the claim. -/
def claimLineC4 (line : String) : Option String :=
  let l := pyStripS line
  if l.toList.isEmpty || pyStartsWith l "#" || pyStartsWith l "-" then none
  else
    let name := stripVersionOpsClaimC4 l
    if name.toList.isEmpty then none else some name

/-- The parser claim C4 describes. -/
def parse_requirements_claimC4 : Option ReqFile → List String
  | none => []
  | some f => f.goodLines.filterMap claimLineC4

/-- C4 (counterexample): on the line `a==b>=c` the code's chained splits cut
at the *earlier* `==` even though `>=` also occurs, yielding `a`, while the
claim's priority rule (`>=` checked first, first match wins) yields `a==b`;
so the claim's description of the strip step does not match the code. -/
theorem c4_counterexample :
    parse_requirements_file (some ⟨["a==b>=c"], false⟩) = ["a"] ∧
    parse_requirements_claimC4 (some ⟨["a==b>=c"], false⟩) = ["a==b"] ∧
    parse_requirements_file (some ⟨["a==b>=c"], false⟩) ≠
      parse_requirements_claimC4 (some ⟨["a==b>=c"], false⟩) := by
  decide

/-- The per-line processing of the amended claim C4: strip the line, skip it
when empty or starting with `#` or `-`, then cut the prefix before the
first `>=`, then within that prefix the part before the first `==`, then
within that the part before the first `<=` (each split applies in turn; an
earlier operator occurrence in the line can therefore cut inside the prefix
a later-priority split kept), strip, and drop empty results. -/
def amendedLineC4 (line : String) : Option String :=
  let l := pyStripS line
  if l.toList.isEmpty || pyStartsWith l "#" || pyStartsWith l "-" then none
  else
    let name :=
      pyStripS ⟨beforeSeq "<=".toList (beforeSeq "==".toList (beforeSeq ">=".toList l.toList))⟩
    if name.toList.isEmpty then none else some name

/-- C4 (amended): `parse_requirements_file` keeps, in order, for every line
that survives the skip rules, the sequentially-split-and-stripped package
name when nonempty; on the six-line example file it returns exactly
`["flask", "requests", "click"]`. -/
theorem c4_amended :
    (∀ lines b, parse_requirements_file (some ⟨lines, b⟩) = lines.filterMap amendedLineC4) ∧
    parse_requirements_file
        (some ⟨["# comment", "", "flask>=2.0", "requests==2.31.0", "-e .", "click"], false⟩)
      = ["flask", "requests", "click"] := by
  constructor
  · intro lines b
    have h : processRequirementLine = amendedLineC4 := rfl
    simp [parse_requirements_file, parseReqBody, collectPackages_eq_filterMap, h]
  · decide

/-- C4 amended, exercised at a concrete input via the theorem itself. -/
theorem c4_amended_witness :
    parse_requirements_file (some ⟨["numpy<=2.0", "  ", "#x", "-r base.txt"], false⟩)
        = ["numpy<=2.0", "  ", "#x", "-r base.txt"].filterMap amendedLineC4 ∧
    ["numpy<=2.0", "  ", "#x", "-r base.txt"].filterMap amendedLineC4 = ["numpy"] :=
  ⟨c4_amended.1 ["numpy<=2.0", "  ", "#x", "-r base.txt"] false, by decide⟩

/-! ## C5: parse_requirements_file error handling -/

/-- C5: `parse_requirements_file` is total toward its caller. A missing file
yields `[]` without an error; when the read raises mid-way (`failsAfter`,
the body's error slot becomes `some`), the exception is swallowed and the
packages collected from the successfully read lines are returned, the same
list as in an error-free read of those lines. -/
theorem c5_parse_requirements_error_handling :
    parse_requirements_file none = [] ∧
    (∀ ls b, parse_requirements_file (some ⟨ls, b⟩) = collectPackages ls) ∧
    (∀ ls, (parseReqBody (some ⟨ls, true⟩)).2.isSome = true ∧
      parse_requirements_file (some ⟨ls, true⟩) = parse_requirements_file (some ⟨ls, false⟩)) := by
  refine ⟨rfl, fun ls b => rfl, fun ls => ⟨rfl, rfl⟩⟩

/-- C5, exercised at a concrete interrupted read via the theorem itself. -/
theorem c5_witness :
    parse_requirements_file (some ⟨["flask", "click==1"], true⟩) =
        collectPackages ["flask", "click==1"] ∧
    collectPackages ["flask", "click==1"] = ["flask", "click"] :=
  ⟨(c5_parse_requirements_error_handling.2.1 ["flask", "click==1"] true), by decide⟩

/-! ## ensure_project_dependencies: shared lemmas -/

/-- The missing-package list `ensure_project_dependencies` computes: the
declared packages of the manifest that are not importable. -/
def missingProjectPackages (env : Env) : List String :=
  (parse_requirements_file env.reqFile).filter (fun p => !(check_package_installed env p))

/-- The successfully installed portion of the missing packages. -/
def installedOfMissing (env : Env) : List String :=
  (missingProjectPackages env).filter (fun p => install_package env p)

lemma epd_reaches_consent (env : Env) (s : String) (f : ReqFile)
    (hreq : env.reqFile = some f)
    (hfil : (parse_requirements_file env.reqFile).filter
        (fun p => !(pyLower p == "pyinstaller")) ≠ [])
    (hmiss : missingProjectPackages env ≠ []) :
    ensure_project_dependencies env s =
      if env.argc == 1 then
        match env.stdinInput with
        | none => ⟨false, [], [.packagesNeeded (missingProjectPackages env)]⟩
        | some resp =>
          if !(["y", "yes", ""].contains (pyLower (pyStripS resp))) then
            ⟨false, [], [.packagesNeeded (missingProjectPackages env), .declinedWarning]⟩
          else projectInstallPhase env (missingProjectPackages env)
      else projectInstallPhase env (missingProjectPackages env) := by
  have hne : parse_requirements_file env.reqFile ≠ [] := by
    intro h
    exact hmiss (by simp [missingProjectPackages, h])
  rw [missingProjectPackages] at hmiss ⊢
  rw [ensure_project_dependencies, hreq]
  rw [hreq] at hfil hmiss hne
  simp only [List.isEmpty_iff, hne, hfil, hmiss, if_false]

/-! ## C1: install-phase batch semantics -/

/-- An environment with one declared, missing package whose installation
fails, invoked with a command-line argument (so no consent prompt). -/
def envC1 : Env :=
  { argc := 2, stdinInput := none, importable := [], pipOk := fun _ => false,
    reqFile := some ⟨["flask"], false⟩, dirListing := [],
    pyFiles := fun _ => .error "missing", runOutcome := .exitZero,
    cleanupFails := false, specExists := false, buildExists := false }

/-- C1 (counterexample): with `flask` declared and missing and pip failing,
every attempted install fails (`flask` is attempted, and its install
returns `false`), yet `ensure_project_dependencies` still returns success —
refuting "returning failure when every attempted install failed". -/
theorem c1_counterexample :
    (ensure_project_dependencies envC1 "main.py").attempts = ["flask"] ∧
    install_package envC1 "flask" = false ∧
    (ensure_project_dependencies envC1 "main.py").ok = true := by
  decide

/-- C1 (amended): once the consent stage is passed (arguments supplied, or
an accepting interactive answer), every missing package is attempted
independently — no failure aborts the batch — and the call returns success
*unconditionally*, logging the partial-success warning whenever not every
install succeeded. -/
theorem c1_amended (env : Env) (s : String) (f : ReqFile)
    (hreq : env.reqFile = some f)
    (hfil : (parse_requirements_file env.reqFile).filter
        (fun p => !(pyLower p == "pyinstaller")) ≠ [])
    (hmiss : missingProjectPackages env ≠ [])
    (hconsent : env.argc ≠ 1 ∨ ∃ resp, env.stdinInput = some resp ∧
        ["y", "yes", ""].contains (pyLower (pyStripS resp)) = true) :
    (ensure_project_dependencies env s).attempts = missingProjectPackages env ∧
    (ensure_project_dependencies env s).ok = true ∧
    ((installedOfMissing env).length ≠ (missingProjectPackages env).length →
      EPDLog.notAllInstalled (installedOfMissing env).length
          (missingProjectPackages env).length
        ∈ (ensure_project_dependencies env s).logs) := by
  rw [epd_reaches_consent env s f hreq hfil hmiss]
  have hphase :
      (projectInstallPhase env (missingProjectPackages env)).attempts =
          missingProjectPackages env ∧
      (projectInstallPhase env (missingProjectPackages env)).ok = true ∧
      ((installedOfMissing env).length ≠ (missingProjectPackages env).length →
        EPDLog.notAllInstalled (installedOfMissing env).length
            (missingProjectPackages env).length
          ∈ (projectInstallPhase env (missingProjectPackages env)).logs) := by
    by_cases h : ((missingProjectPackages env).filter
        (fun p => install_package env p)).length = (missingProjectPackages env).length
    · simp [projectInstallPhase, installedOfMissing, h]
    · simp [projectInstallPhase, installedOfMissing, h]
  rcases hconsent with h1 | ⟨resp, hresp, hyes⟩
  · have hb : (env.argc == 1) = false := by simpa using h1
    simpa [hb] using hphase
  · have hyes' : pyLower (pyStripS resp) = "y" ∨ pyLower (pyStripS resp) = "yes" ∨
        pyLower (pyStripS resp) = "" := by simpa using hyes
    have hcond : ¬(¬pyLower (pyStripS resp) = "y" ∧ ¬pyLower (pyStripS resp) = "yes" ∧
        ¬pyLower (pyStripS resp) = "") := by tauto
    by_cases hargc : env.argc = 1
    · have hb : (env.argc == 1) = true := by simpa using hargc
      rw [hb, hresp]
      simpa [hcond] using hphase
    · have hb : (env.argc == 1) = false := by simpa using hargc
      simpa [hb] using hphase

/-- C1 amended, exercised via the theorem at `envC1`: the one missing
package is attempted, the call succeeds, and since zero of one installs
succeeded the partial warning is logged. -/
theorem c1_amended_witness :
    (ensure_project_dependencies envC1 "main.py").attempts = missingProjectPackages envC1 ∧
    (ensure_project_dependencies envC1 "main.py").ok = true ∧
    EPDLog.notAllInstalled 0 1 ∈ (ensure_project_dependencies envC1 "main.py").logs := by
  have h := c1_amended envC1 "main.py" ⟨["flask"], false⟩ rfl (by decide) (by decide)
    (Or.inl (by decide))
  exact ⟨h.1, h.2.1, h.2.2 (by decide)⟩

/-! ## C2: pyinstaller exclusion from project dependencies -/

/-- A manifest declaring both `pyinstaller` and `flask`, with nothing
importable; invoked with arguments so installation needs no consent. -/
def envC2 : Env :=
  { argc := 2, stdinInput := none, importable := [], pipOk := fun _ => true,
    reqFile := some ⟨["pyinstaller", "flask"], false⟩, dirListing := [],
    pyFiles := fun _ => .error "missing", runOutcome := .exitZero,
    cleanupFails := false, specExists := false, buildExists := false }

/-- C2 (code bug): the source filters `pyinstaller` out of the declared
packages ("ФИКС: Исключи PyInstaller" comment documents the intent) but the
duplicated locate-and-parse block right after re-reads `requirements.txt`
and overwrites the filtered list, so `pyinstaller` is checked as a project
dependency and passed to `install_package` again. -/
theorem c2_code_bug :
    check_package_installed envC2 "pyinstaller" = false ∧
    missingProjectPackages envC2 = ["pyinstaller", "flask"] ∧
    "pyinstaller" ∈ (ensure_project_dependencies envC2 "main.py").attempts := by
  decide

/-! ## C7: interactive consent gating -/

/-- C7: with packages missing and no command-line arguments
(`len(sys.argv) == 1`), a single confirmation is read: `"n"` — and likewise
end-of-input/interrupt — declines, returning failure with no install
attempted; empty input accepts; and when arguments were supplied the prompt
is skipped entirely (the result does not depend on standard input) and
installation proceeds. A failed project-dependency step makes
`compile_to_exe` return `False` before PyInstaller is ever invoked. -/
theorem c7_consent_gate :
    (∀ (env : Env) (s : String) (f : ReqFile), env.reqFile = some f →
      (parse_requirements_file env.reqFile).filter
          (fun p => !(pyLower p == "pyinstaller")) ≠ [] →
      missingProjectPackages env ≠ [] →
      env.argc = 1 →
      (env.stdinInput = some "n" ∨ env.stdinInput = none) →
      (ensure_project_dependencies env s).ok = false ∧
        (ensure_project_dependencies env s).attempts = []) ∧
    (∀ (env : Env) (s : String) (f : ReqFile), env.reqFile = some f →
      (parse_requirements_file env.reqFile).filter
          (fun p => !(pyLower p == "pyinstaller")) ≠ [] →
      missingProjectPackages env ≠ [] →
      env.argc = 1 →
      env.stdinInput = some "" →
      (ensure_project_dependencies env s).ok = true ∧
        (ensure_project_dependencies env s).attempts = missingProjectPackages env) ∧
    (∀ (env : Env) (s : String) (i j : Option String), env.argc ≠ 1 →
      ensure_project_dependencies { env with stdinInput := i } s =
        ensure_project_dependencies { env with stdinInput := j } s) ∧
    (∀ (env : Env) (s : String) (d : Option String),
      (ensure_project_dependencies env s).ok = false →
      (compile_to_exe env s d).1 = false ∧
        ∀ cmd, CEvent.ranPyinstaller cmd ∉ (compile_to_exe env s d).2) := by
  refine ⟨?_, ?_, ?_, ?_⟩
  · intro env s f hreq hfil hmiss hargc hin
    rw [epd_reaches_consent env s f hreq hfil hmiss]
    have hb : (env.argc == 1) = true := by simpa using hargc
    rw [hb]
    rcases hin with hin | hin <;> rw [hin]
    · have hn : (!(["y", "yes", ""].contains (pyLower (pyStripS "n")))) = true := by decide
      simp only [hn]
      exact ⟨rfl, rfl⟩
    · exact ⟨rfl, rfl⟩
  · intro env s f hreq hfil hmiss hargc hin
    rw [epd_reaches_consent env s f hreq hfil hmiss]
    have hb : (env.argc == 1) = true := by simpa using hargc
    rw [hb, hin]
    have he : (!(["y", "yes", ""].contains (pyLower (pyStripS "")))) = false := by decide
    simp only [he]
    by_cases h : ((missingProjectPackages env).filter
        (fun p => install_package env p)).length = (missingProjectPackages env).length
    · simp [projectInstallPhase, h]
    · simp [projectInstallPhase, h]
  · intro env s i j h
    have hb : (env.argc == 1) = false := by simpa using h
    cases hr : env.reqFile <;>
      simp [ensure_project_dependencies, projectInstallPhase, install_package,
        check_package_installed, missingProjectPackages, hb, hr]
  · intro env s d h
    cases hc : ensure_compiler_dependencies env <;>
      simp [compile_to_exe, compile_body, hc, h]

/-- Interactive invocation: no arguments, one missing package, stdin `"n"`. -/
def envC7 : Env :=
  { argc := 1, stdinInput := some "n", importable := [], pipOk := fun _ => false,
    reqFile := some ⟨["flask"], false⟩, dirListing := [],
    pyFiles := fun _ => .error "missing", runOutcome := .exitZero,
    cleanupFails := false, specExists := false, buildExists := false }

/-- C7, exercised via the theorem: declining with `"n"` fails the
project-dependency step with no installs, and the compile aborts. -/
theorem c7_witness :
    (ensure_project_dependencies envC7 "main.py").ok = false ∧
    (ensure_project_dependencies envC7 "main.py").attempts = [] ∧
    (compile_to_exe envC7 "main.py" none).1 = false := by
  have h1 := c7_consent_gate.1 envC7 "main.py" ⟨["flask"], false⟩ rfl (by decide) (by decide)
    rfl (Or.inl rfl)
  have h4 := c7_consent_gate.2.2.2 envC7 "main.py" none h1.1
  exact ⟨h1.1, h1.2, h4.1⟩

/-! ## C3: analyze_dependencies invariants -/

lemma list_toFinset_dedup {α : Type} [DecidableEq α] (l : List α) :
    l.dedup.toFinset = l.toFinset := by
  ext a
  simp

lemma nodeImports_toFinset (n : PyNode) :
    (nodeImports n).toFinset =
      (match n with
       | PyNode.imp ns => ns.toFinset
       | PyNode.impFrom (some m) => {m}
       | PyNode.impFrom none => ∅) := by
  cases n with
  | imp ns => rfl
  | impFrom m => cases m <;> simp [nodeImports]

/-- A project whose entry point imports `os`, `json`, `requests` and whose
single local module imports `numpy`. -/
def envC3 : Env :=
  { argc := 2, stdinInput := none, importable := [], pipOk := fun _ => false,
    reqFile := none, dirListing := ["main.py", "helper.py"],
    pyFiles := fun p =>
      if p == "proj/main.py" then .ok [.imp ["os"], .imp ["json"], .imp ["requests"]]
      else if p == "proj/helper.py" then .ok [.imp ["numpy"]]
      else .error "no such file",
    runOutcome := .exitZero, cleanupFails := false, specExists := false,
    buildExists := false }

/-- C3: `analyze_dependencies` satisfies `externalImports ⊆ allImports`;
`allImports` is, as a set, the union of the entry point's imports and each
discovered local module's imports; `externalImports` is `allImports` minus
the fixed standard-library allowlist; and on the `os`/`json`/`requests`
entry with a `numpy` local module the external set is exactly
`{requests, numpy}`. -/
theorem c3_analysis_invariants :
    (∀ (env : Env) (p : String),
      (analyze_dependencies env p).external_imports ⊆
          (analyze_dependencies env p).all_imports ∧
      (analyze_dependencies env p).all_imports.toFinset =
        (extract_imports env p).1.toFinset ∪
          (find_local_modules env p).foldr
            (fun m s => (extract_imports env m).1.toFinset ∪ s) ∅ ∧
      (analyze_dependencies env p).external_imports.toFinset =
        (analyze_dependencies env p).all_imports.toFinset \ stdlib_modules.toFinset) ∧
    (analyze_dependencies envC3 "proj/main.py").external_imports.toFinset =
      ({"requests", "numpy"} : Finset String) := by
  constructor
  · intro env p
    refine ⟨?_, ?_, ?_⟩
    · simp only [analyze_dependencies]
      exact List.filter_subset' _
    · simp only [analyze_dependencies]
      rw [list_toFinset_dedup, toFinset_foldl_append]
    · simp only [analyze_dependencies]
      ext a
      simp [List.mem_filter, Finset.mem_sdiff]
  · decide

/-- C3, exercised via the theorem at the example project. -/
theorem c3_witness :
    (analyze_dependencies envC3 "proj/main.py").external_imports ⊆
        (analyze_dependencies envC3 "proj/main.py").all_imports ∧
    (analyze_dependencies envC3 "proj/main.py").all_imports = ["os", "json", "requests", "numpy"] :=
  ⟨(c3_analysis_invariants.1 envC3 "proj/main.py").1, by decide⟩

/-! ## C6: extract_imports error handling and result set -/

/-- C6: `extract_imports` is total toward its caller. On any read or parse
failure it yields the empty list plus one warning carrying the file path
and the error detail; on success it yields a duplicate-free list whose
underlying set is the union of the names bound by direct `import`
statements and the modules of `from`-imports whose module part is present. -/
theorem c6_extract_imports :
    (∀ (env : Env) (p e : String), env.pyFiles p = .error e →
      extract_imports env p = ([], [ParseWarning.couldNotParse p e])) ∧
    (∀ (env : Env) (p : String) (nodes : List PyNode), env.pyFiles p = .ok nodes →
      (extract_imports env p).2 = [] ∧
      (extract_imports env p).1.Nodup ∧
      (extract_imports env p).1.toFinset =
        nodes.foldr (fun n s =>
          (match n with
           | PyNode.imp ns => ns.toFinset
           | PyNode.impFrom (some m) => {m}
           | PyNode.impFrom none => ∅) ∪ s) ∅) := by
  constructor
  · intro env p e h
    simp [extract_imports, h]
  · intro env p nodes h
    refine ⟨by simp [extract_imports, h], by simp [extract_imports, h, List.nodup_dedup], ?_⟩
    simp only [extract_imports, h]
    rw [list_toFinset_dedup, toFinset_foldl_append]
    induction nodes with
    | nil => simp
    | cons n ns ih => simp [ih, nodeImports_toFinset]

/-- C6, exercised via the theorem: the failure case on a missing file and
the success case on the example entry point. -/
theorem c6_witness :
    extract_imports envC3 "bad.py" = ([], [ParseWarning.couldNotParse "bad.py" "no such file"]) ∧
    (extract_imports envC3 "proj/main.py").1.Nodup ∧
    (extract_imports envC3 "proj/main.py").1 = ["os", "json", "requests"] := by
  have h1 := c6_extract_imports.1 envC3 "bad.py" "no such file" rfl
  have h2 := c6_extract_imports.2 envC3 "proj/main.py"
    [.imp ["os"], .imp ["json"], .imp ["requests"]] rfl
  exact ⟨h1, h2.2.1, by decide⟩

/-! ## C8: PyInstaller command composition -/

lemma foldl_hidden_import (ext cmd : List String) :
    ext.foldl (fun c e => c ++ ["--hidden-import", e]) cmd
      = cmd ++ ext.flatMap (fun e => ["--hidden-import", e]) := by
  induction ext generalizing cmd with
  | nil => simp
  | cons e es ih => simp [ih]

lemma buildPyinstallerCmd_eq (script outputDir scriptName : String) (ext : List String) :
    buildPyinstallerCmd script outputDir scriptName ext =
      ["pyinstaller", "--onefile", "--console",
       "--distpath", outputDir,
       "--workpath", joinPath outputDir "build",
       "--specpath", outputDir,
       "--name", scriptName,
       "--clean"] ++ ext.flatMap (fun e => ["--hidden-import", e]) ++ [script] := by
  rw [buildPyinstallerCmd]
  rw [foldl_hidden_import]

lemma ranPyinstaller_not_in_cleanup (env : Env) (o n : String) (cmd : List String) :
    CEvent.ranPyinstaller cmd ∉ (cleanup_temp_files env o n).1 := by
  rw [cleanup_temp_files]
  cases env.cleanupFails <;> cases env.specExists <;> cases env.buildExists <;> simp

lemma ranPyinstaller_mem_trace (env : Env) (s : String) (d : Option String)
    (cmd : List String)
    (hmem : CEvent.ranPyinstaller cmd ∈ (compile_to_exe env s d).2) :
    cmd = buildPyinstallerCmd s (d.getD (dirname s)) (splitextBase (basename s))
      (analyze_dependencies env s).external_imports := by
  cases hc : ensure_compiler_dependencies env with
  | false => simp [compile_to_exe, compile_body, hc] at hmem
  | true =>
    cases hp : (ensure_project_dependencies env s).ok with
    | false => simp [compile_to_exe, compile_body, hc, hp] at hmem
    | true =>
      have hnc := ranPyinstaller_not_in_cleanup env (d.getD (dirname s))
        (splitextBase (basename s)) cmd
      cases hr : env.runOutcome
      case exitZero =>
        simp [compile_to_exe, compile_body, hc, hp, hr] at hmem
        rcases hmem with h | h
        · exact h
        · exact absurd h hnc
      all_goals simp [compile_to_exe, compile_body, hc, hp, hr] at hmem
      all_goals exact hmem

/-- C8: any PyInstaller invocation recorded by `compile_to_exe` uses, in
order, the single-file flag, the console flag, the dist/work/spec
directories rooted at the output directory (the given one, or the script's
directory), the output name set to the entry file's base name without
extension, the clean flag, one `--hidden-import` pair per external import,
and the entry path as final positional argument. -/
theorem c8_command_composition (env : Env) (s : String) (d : Option String)
    (cmd : List String)
    (hmem : CEvent.ranPyinstaller cmd ∈ (compile_to_exe env s d).2) :
    cmd = ["pyinstaller", "--onefile", "--console",
        "--distpath", d.getD (dirname s),
        "--workpath", joinPath (d.getD (dirname s)) "build",
        "--specpath", d.getD (dirname s),
        "--name", splitextBase (basename s),
        "--clean"] ++
      (analyze_dependencies env s).external_imports.flatMap
        (fun e => ["--hidden-import", e]) ++ [s] := by
  rw [ranPyinstaller_mem_trace env s d cmd hmem, buildPyinstallerCmd_eq]

/-- A project that reaches the packaging invocation: PyInstaller and the
(empty) project requirements are satisfied, and the run exits zero. -/
def envC8 : Env :=
  { argc := 2, stdinInput := none, importable := ["pyinstaller"], pipOk := fun _ => false,
    reqFile := none, dirListing := ["main.py", "helper.py"],
    pyFiles := fun p =>
      if p == "proj/main.py" then .ok [.imp ["os"], .imp ["json"], .imp ["requests"]]
      else if p == "proj/helper.py" then .ok [.imp ["numpy"]]
      else .error "no such file",
    runOutcome := .exitZero, cleanupFails := false, specExists := true,
    buildExists := true }

/-- C8, exercised via the theorem: the recorded command at the example
project, evaluated to its literal flag list. -/
theorem c8_witness :
    CEvent.ranPyinstaller
        (buildPyinstallerCmd "proj/main.py" "out" "main" ["requests", "numpy"])
      ∈ (compile_to_exe envC8 "proj/main.py" (some "out")).2 ∧
    buildPyinstallerCmd "proj/main.py" "out" "main" ["requests", "numpy"] =
      ["pyinstaller", "--onefile", "--console",
        "--distpath", (some "out").getD (dirname "proj/main.py"),
        "--workpath", joinPath ((some "out").getD (dirname "proj/main.py")) "build",
        "--specpath", (some "out").getD (dirname "proj/main.py"),
        "--name", splitextBase (basename "proj/main.py"),
        "--clean"] ++
      (analyze_dependencies envC8 "proj/main.py").external_imports.flatMap
        (fun e => ["--hidden-import", e]) ++ ["proj/main.py"] ∧
    buildPyinstallerCmd "proj/main.py" "out" "main" ["requests", "numpy"] =
      ["pyinstaller", "--onefile", "--console", "--distpath", "out",
       "--workpath", "out/build", "--specpath", "out", "--name", "main", "--clean",
       "--hidden-import", "requests", "--hidden-import", "numpy", "proj/main.py"] := by
  refine ⟨by decide, ?_, by decide⟩
  exact c8_command_composition envC8 "proj/main.py" (some "out")
    (buildPyinstallerCmd "proj/main.py" "out" "main" ["requests", "numpy"]) (by decide)


/-! ## C9: cleanup runs only after success, errors are warnings -/

lemma removedSpec_in_cleanup (env : Env) (o n p : String)
    (h : CEvent.removedSpec p ∈ (cleanup_temp_files env o n).1) :
    p = joinPath o (n ++ ".spec") := by
  rw [cleanup_temp_files] at h
  cases hcf : env.cleanupFails <;> cases hse : env.specExists <;>
    cases hbe : env.buildExists <;> simp [hcf, hse, hbe] at h <;> exact h

lemma removedBuild_in_cleanup (env : Env) (o n p : String)
    (h : CEvent.removedBuild p ∈ (cleanup_temp_files env o n).1) :
    p = joinPath o "build" := by
  rw [cleanup_temp_files] at h
  cases hcf : env.cleanupFails <;> cases hse : env.specExists <;>
    cases hbe : env.buildExists <;> simp [hcf, hse, hbe] at h <;> exact h

lemma compile_to_exe_fst (env : Env) (s : String) (d : Option String) :
    (compile_to_exe env s d).1 =
      (ensure_compiler_dependencies env &&
        ((ensure_project_dependencies env s).ok &&
          (env.runOutcome == RunOutcome.exitZero))) := by
  cases hc : ensure_compiler_dependencies env with
  | false => simp [compile_to_exe, compile_body, hc]
  | true =>
    cases hp : (ensure_project_dependencies env s).ok with
    | false => simp [compile_to_exe, compile_body, hc, hp]
    | true =>
      cases hr : env.runOutcome <;> simp [compile_to_exe, compile_body, hc, hp, hr]

lemma installAllOrFail_cleanupFails (env : Env) (b : Bool) (l : List String) :
    installAllOrFail { env with cleanupFails := b } l = installAllOrFail env l := by
  induction l with
  | nil => rfl
  | cons p rest ih => simp only [installAllOrFail, install_package, ih]

lemma ensure_compiler_dependencies_cleanupFails (env : Env) (b : Bool) :
    ensure_compiler_dependencies { env with cleanupFails := b } =
      ensure_compiler_dependencies env := by
  simp [ensure_compiler_dependencies, check_package_installed, installAllOrFail_cleanupFails]

lemma ensure_project_dependencies_cleanupFails (env : Env) (s : String) (b : Bool) :
    ensure_project_dependencies { env with cleanupFails := b } s =
      ensure_project_dependencies env s := rfl

lemma runOutcome_cleanupFails (env : Env) (b : Bool) :
    ({ env with cleanupFails := b } : Env).runOutcome = env.runOutcome := rfl

/-- C9: artifact removals appear in the trace only when the packaging run
exited zero (and then the compile reports success); the removed paths are
`outputDir/<name>.spec` and `outputDir/build`; a failing cleanup removes
nothing but produces only a warning; and the reported result of
`compile_to_exe` never depends on whether cleanup fails. -/
theorem c9_cleanup_semantics :
    (∀ (env : Env) (s : String) (d : Option String) (p : String),
      CEvent.removedSpec p ∈ (compile_to_exe env s d).2 ∨
        CEvent.removedBuild p ∈ (compile_to_exe env s d).2 →
      env.runOutcome = RunOutcome.exitZero ∧ (compile_to_exe env s d).1 = true) ∧
    (∀ (env : Env) (s : String) (d : Option String) (p : String),
      CEvent.removedSpec p ∈ (compile_to_exe env s d).2 →
      p = joinPath (d.getD (dirname s)) (splitextBase (basename s) ++ ".spec")) ∧
    (∀ (env : Env) (s : String) (d : Option String) (p : String),
      CEvent.removedBuild p ∈ (compile_to_exe env s d).2 →
      p = joinPath (d.getD (dirname s)) "build") ∧
    (∀ (env : Env) (o n : String), env.cleanupFails = true →
      (cleanup_temp_files env o n).1 = [] ∧
      (cleanup_temp_files env o n).2 =
        [CleanupLog.cleanupWarning "could not clean up temporary files"]) ∧
    (∀ (env : Env) (s : String) (d : Option String) (b₁ b₂ : Bool),
      (compile_to_exe { env with cleanupFails := b₁ } s d).1 =
        (compile_to_exe { env with cleanupFails := b₂ } s d).1) := by
  refine ⟨?_, ?_, ?_, ?_, ?_⟩
  · intro env s d p h
    cases hc : ensure_compiler_dependencies env with
    | false => rcases h with h | h <;> simp [compile_to_exe, compile_body, hc] at h
    | true =>
      cases hp : (ensure_project_dependencies env s).ok with
      | false => rcases h with h | h <;> simp [compile_to_exe, compile_body, hc, hp] at h
      | true =>
        cases hr : env.runOutcome
        case exitZero => exact ⟨rfl, by simp [compile_to_exe, compile_body, hc, hp, hr]⟩
        all_goals rcases h with h | h <;>
          simp [compile_to_exe, compile_body, hc, hp, hr] at h
  · intro env s d p h
    cases hc : ensure_compiler_dependencies env with
    | false => simp [compile_to_exe, compile_body, hc] at h
    | true =>
      cases hp : (ensure_project_dependencies env s).ok with
      | false => simp [compile_to_exe, compile_body, hc, hp] at h
      | true =>
        cases hr : env.runOutcome
        case exitZero =>
          simp [compile_to_exe, compile_body, hc, hp, hr] at h
          exact removedSpec_in_cleanup env _ _ _ h
        all_goals simp [compile_to_exe, compile_body, hc, hp, hr] at h
  · intro env s d p h
    cases hc : ensure_compiler_dependencies env with
    | false => simp [compile_to_exe, compile_body, hc] at h
    | true =>
      cases hp : (ensure_project_dependencies env s).ok with
      | false => simp [compile_to_exe, compile_body, hc, hp] at h
      | true =>
        cases hr : env.runOutcome
        case exitZero =>
          simp [compile_to_exe, compile_body, hc, hp, hr] at h
          exact removedBuild_in_cleanup env _ _ _ h
        all_goals simp [compile_to_exe, compile_body, hc, hp, hr] at h
  · intro env o n h
    simp [cleanup_temp_files, h]
  · intro env s d b₁ b₂
    have key : ∀ b : Bool, (compile_to_exe { env with cleanupFails := b } s d).1 =
        (ensure_compiler_dependencies env &&
          ((ensure_project_dependencies env s).ok &&
            (env.runOutcome == RunOutcome.exitZero))) := by
      intro b
      rw [compile_to_exe_fst]
      rw [ensure_compiler_dependencies_cleanupFails]
      rw [ensure_project_dependencies_cleanupFails]
    rw [key b₁, key b₂]

/-- The successful example project, but with cleanup raising. -/
def envC9 : Env := { envC8 with cleanupFails := true }

/-- C9, exercised via the theorem: a failing cleanup yields only a warning
and the compile result is the same as with a working cleanup. -/
theorem c9_witness :
    (cleanup_temp_files envC9 "out" "main").1 = [] ∧
    (cleanup_temp_files envC9 "out" "main").2 =
      [CleanupLog.cleanupWarning "could not clean up temporary files"] ∧
    (compile_to_exe { envC8 with cleanupFails := true } "proj/main.py" (some "out")).1 =
      (compile_to_exe { envC8 with cleanupFails := false } "proj/main.py" (some "out")).1 := by
  have h4 := c9_cleanup_semantics.2.2.2.1 envC9 "out" "main" rfl
  have h5 := c9_cleanup_semantics.2.2.2.2 envC8 "proj/main.py" (some "out") true false
  exact ⟨h4.1, h4.2, h5⟩

/-! ## C10: compile_to_exe is total and fails on every fault -/

lemma compile_false_of_not_exitZero (env : Env) (s : String) (d : Option String)
    (h : env.runOutcome ≠ RunOutcome.exitZero) : (compile_to_exe env s d).1 = false := by
  rw [compile_to_exe_fst]
  have hb : (env.runOutcome == RunOutcome.exitZero) = false := by
    simpa using h
  simp [hb]

/-- C10: `compile_to_exe` always hands its caller a boolean: whenever the
`try` body ends in an exception — non-zero PyInstaller exit, missing
PyInstaller executable, or any other fault — the corresponding `except`
clause turns it into `False`; consequently any run outcome other than exit
status zero yields `False`, and `True` is only ever reported after a
zero-exit packaging run. -/
theorem c10_compile_total :
    (∀ (env : Env) (s : String) (d : Option String) (exc : PyExc),
      (compile_body env s d).1 = Except.error exc → (compile_to_exe env s d).1 = false) ∧
    (∀ (env : Env) (s : String) (d : Option String),
      env.runOutcome ≠ RunOutcome.exitZero → (compile_to_exe env s d).1 = false) ∧
    (∀ (env : Env) (s : String) (d : Option String),
      (compile_to_exe env s d).1 = true → env.runOutcome = RunOutcome.exitZero) := by
  refine ⟨?_, ?_, ?_⟩
  · intro env s d exc h
    simp [compile_to_exe, h]
  · intro env s d h
    exact compile_false_of_not_exitZero env s d h
  · intro env s d h
    by_contra hne
    rw [compile_false_of_not_exitZero env s d hne] at h
    exact Bool.false_ne_true h

/-- The example project with a failing PyInstaller run. -/
def envC10 : Env := { envC8 with runOutcome := .calledProcessError "boom" }

/-- C10, exercised via the theorem: a non-zero PyInstaller exit makes the
body raise `CalledProcessError` and `compile_to_exe` return `False`;
likewise a missing executable. -/
theorem c10_witness :
    (compile_body envC10 "proj/main.py" (some "out")).1 =
      Except.error (PyExc.calledProcessError "boom") ∧
    (compile_to_exe envC10 "proj/main.py" (some "out")).1 = false ∧
    (compile_to_exe { envC8 with runOutcome := .fileNotFound } "proj/main.py" (some "out")).1
      = false := by
  refine ⟨rfl, ?_, ?_⟩
  · exact c10_compile_total.1 envC10 "proj/main.py" (some "out")
      (PyExc.calledProcessError "boom") rfl
  · exact c10_compile_total.2.1 { envC8 with runOutcome := .fileNotFound }
      "proj/main.py" (some "out") (by decide)
